import Mathlib

/-!
Verification development for the deferred-instantiation experiment
orchestrator (`src/launch_experiment.py`, `src/bootstrap/launch_experiment.py`,
`src/bootstrap/factories.py`, `src/test.py`).

The Python code is shallowly embedded: each factory becomes a Lean function,
deferred constructors become explicit function arguments together with a record
of their bound configuration, and every constructor invocation performed by a
factory is recorded in an invocation log so that "invokes exactly twice /
never invokes" style properties are provable.  Python `raise` sites are
embedded as `Except` errors, named after the specification's error taxonomy
(the source raises `ValueError` at every site; the taxonomy names the sites:
missing-dataset / missing-loss / missing-loader preconditions map to
`preconditionError`, missing checkpoint file or empty eligible-checkpoint set
map to `notFoundError`).
-/

deriving instance DecidableEq for Except

namespace Experiment

/-- The specification's error taxonomy (§7).  Every embedded `raise` site uses
the taxonomy name that corresponds to its message. -/
inductive Err where
  | configurationError
  | preconditionError
  | notFoundError
deriving DecidableEq, Repr

/-- Arguments of one invocation of the dataset deferred constructor, exactly
the keyword arguments bound at the call sites in `make_datasets`
(`src/bootstrap/factories.py` lines 45-49): `split`, `seed`, and `augment`
(`none` when the call site does not pass `augment`). -/
structure DatasetCall where
  split : String
  seed : Int
  augment : Option Bool
deriving DecidableEq, Repr

/-- A live dataset instance.  The dataset type itself is an external
collaborator (spec §6); an instance is modelled as the record of the
constructor arguments that produced it. -/
structure DatasetInst where
  ctorArgs : DatasetCall
deriving DecidableEq, Repr

/-- The bound configuration of the dataset deferred constructor, as seen by
`hydra_zen.just` introspection.  `make_model` reads its `img_dim` field
(`src/bootstrap/factories.py` line 96). -/
structure DatasetPartialCfg where
  img_dim : Nat
deriving DecidableEq, Repr

/-- The dataset deferred constructor: introspectable bound configuration plus
the invocation operation (spec §3, "Deferred Constructor"). -/
structure DatasetP where
  cfg : DatasetPartialCfg
  ctor : DatasetCall → DatasetInst

/-- `hydra_zen.just`: read the bound configuration out of a deferred
constructor without invoking it. -/
def just (d : DatasetP) : DatasetPartialCfg := d.cfg

/-- A live model instance: the external model constructor is modelled as
recording the `encoder_input_dim` keyword it was invoked with
(`src/bootstrap/factories.py` line 95-97). -/
structure ModelInst where
  encoder_input_dim : Nat
deriving DecidableEq, Repr

/-- `make_datasets` (`src/bootstrap/factories.py` lines 38-50).  Returns the
`(train, val, test)` triple together with the log of dataset-constructor
invocations, in call order. -/
def make_datasets (training_mode : Bool) (seed : Int) (dataset : DatasetP) :
    (Option DatasetInst × Option DatasetInst × Option DatasetInst)
      × List DatasetCall :=
  if training_mode then
    let trainArgs : DatasetCall := { split := "train", seed := seed, augment := none }
    let valArgs : DatasetCall := { split := "val", seed := seed, augment := none }
    ((some (dataset.ctor trainArgs), some (dataset.ctor valArgs), none),
      [trainArgs, valArgs])
  else
    let testArgs : DatasetCall := { split := "test", seed := seed, augment := some false }
    ((none, none, some (dataset.ctor testArgs)), [testArgs])

/-- `make_model` (`src/bootstrap/factories.py` lines 91-99): invoke the model
deferred constructor with `encoder_input_dim = just(dataset).img_dim ** 2`.
The second component is the log of invocations of the *dataset* constructor
performed by `make_model` — the source performs none (it only introspects via
`just`). -/
def make_model (model_ctor : Nat → ModelInst) (dataset : DatasetP) :
    ModelInst × List DatasetCall :=
  (model_ctor ((just dataset).img_dim ^ 2), [])

/-- The shared loader random generator: `torch.Generator()` seeded with
`manual_seed(seed)` (`src/bootstrap/factories.py` lines 65-68). -/
structure Generator where
  seed : Int
deriving DecidableEq, Repr

/-- The data-loader deferred constructor.  Its bound keyword arguments supply
the defaults for `shuffle` and `drop_last` (and a representative further bound
argument, `batch_size`); a call-time keyword overrides the bound one, as with
`functools.partial`. -/
structure DataLoaderCtor where
  batch_size : Nat
  shuffle : Bool
  drop_last : Bool
deriving DecidableEq, Repr

/-- A live data-loader instance: the dataset it wraps plus the effective
keyword arguments of its construction. -/
structure DataLoaderInst where
  dataset : DatasetInst
  generator : Option Generator
  batch_size : Nat
  shuffle : Bool
  drop_last : Bool
deriving DecidableEq, Repr

/-- One invocation of the data-loader deferred constructor:
`p(ds, generator=g[, shuffle=s, drop_last=d])`.  A `some` call-time keyword
overrides the constructor's bound default, `none` keeps the default. -/
def DataLoaderCtor.call (p : DataLoaderCtor) (ds : DatasetInst)
    (g : Option Generator) (shuffle? drop_last? : Option Bool) : DataLoaderInst :=
  { dataset := ds, generator := g, batch_size := p.batch_size,
    shuffle := shuffle?.getD p.shuffle, drop_last := drop_last?.getD p.drop_last }

/-- `make_dataloaders` (`src/bootstrap/factories.py` lines 53-88).  The
`reproducible` flag embeds `project_conf.REPRODUCIBLE` (external
configuration).  Besides the `Except` result, the second component logs every
loader-constructor invocation in call order, so the error cases demonstrably
construct no loader. -/
def make_dataloaders (data_loader : DataLoaderCtor)
    (train_dataset val_dataset test_dataset : Option DatasetInst)
    (training_mode : Bool) (reproducible : Bool) (seed : Int) :
    Except Err (Option DataLoaderInst × Option DataLoaderInst × Option DataLoaderInst)
      × List DataLoaderInst :=
  let generator : Option Generator := if reproducible then some ⟨seed⟩ else none
  if training_mode then
    match train_dataset, val_dataset with
    | some tr, some va =>
        let train_loader_inst := data_loader.call tr generator none none
        let val_loader_inst := data_loader.call va generator (some false) (some false)
        (.ok (some train_loader_inst, some val_loader_inst, none),
          [train_loader_inst, val_loader_inst])
    | _, _ => (.error .preconditionError, [])
  else
    match test_dataset with
    | some te =>
        let test_loader_inst := data_loader.call te generator (some false) (some false)
        (.ok (none, none, some test_loader_inst), [test_loader_inst])
    | none => (.error .preconditionError, [])

/-- A model as held after device placement: either the bare instance or the
`TransparentDataParallel` wrapping of it (`src/bootstrap/factories.py`
line 112).  The wrapper preserves the wrapped model (transparency is the
wrapper's own contract, out of scope here). -/
inductive ModelObj where
  | direct (m : ModelInst)
  | dataParallel (m : ModelInst)
deriving DecidableEq, Repr

/-- `parallelize_model` (`src/bootstrap/factories.py` lines 102-113), with
`torch.cuda.device_count()` supplied as the `device_count` argument. -/
def parallelize_model (device_count : Nat) (model : ModelInst) : ModelObj :=
  if device_count > 1 then .dataParallel model else .direct model

/-- A live optimizer instance: records the model whose `parameters()` it was
constructed from. -/
structure OptimizerInst where
  params_of : ModelInst
deriving DecidableEq, Repr

/-- `make_optimizer` (`src/bootstrap/factories.py` lines 116-119): invoke the
optimizer deferred constructor on `model.parameters()`. -/
def make_optimizer (optimizer_ctor : ModelInst → OptimizerInst)
    (model : ModelInst) : OptimizerInst :=
  optimizer_ctor model

/-- A live scheduler instance, by family.  `cosineAnnealingLR` carries the
mutable `T_max` field plus a representative further constructor-supplied field
(`eta_min`); the other families carry their own constructor-supplied fields. -/
inductive Scheduler where
  | cosineAnnealingLR (t_max : Int) (eta_min : Int)
  | stepLR (step_size : Int) (gamma : Int)
  | reduceLROnPlateau (patience : Int)
deriving DecidableEq, Repr

/-- `make_scheduler` (`src/bootstrap/factories.py` lines 122-132): invoke the
scheduler deferred constructor on the live optimizer; if the result is a
`CosineAnnealingLR`, overwrite its `T_max` with `epochs`. -/
def make_scheduler (scheduler_ctor : OptimizerInst → Scheduler)
    (optimizer : OptimizerInst) (epochs : Int) : Scheduler :=
  let scheduler := scheduler_ctor optimizer
  match scheduler with
  | .cosineAnnealingLR _ eta_min => .cosineAnnealingLR epochs eta_min
  | s => s

/-- A live training-loss instance (external collaborator, constructible with
no required arguments, spec §6). -/
structure LossInst where
deriving DecidableEq, Repr

/-- `make_training_loss` (`src/bootstrap/factories.py` lines 135-141).  The
second component logs the loss-constructor invocations. -/
def make_training_loss (training_mode : Bool) (training_loss_ctor : Unit → LossInst) :
    Option LossInst × List LossInst :=
  if training_mode then
    let training_loss := training_loss_ctor ()
    (some training_loss, [training_loss])
  else
    (none, [])

/-- Lexicographic code-point comparison of character lists — Python's string
`<=`.  (Defined by structural recursion so that concrete instances evaluate
inside the kernel.) -/
def charListLe : List Char → List Char → Bool
  | [], _ => true
  | _ :: _, [] => false
  | a :: as, b :: bs =>
      if a.toNat < b.toNat then true
      else if b.toNat < a.toNat then false
      else charListLe as bs

/-- The comparison used by Python's `sorted` on checkpoint file names:
lexicographic code-point order on strings. -/
def strLe (a b : String) : Bool := charListLe a.data b.data

/-- Does the character list `s` start with `p`? -/
def startsWithL : List Char → List Char → Bool
  | _, [] => true
  | [], _ :: _ => false
  | c :: cs, d :: ds => c == d && startsWithL cs ds

/-- Python's `str.startswith`. -/
def strStartsWith (s p : String) : Bool := startsWithL s.data p.data

/-- Python's `str.endswith`. -/
def strEndsWith (s p : String) : Bool := startsWithL s.data.reverse p.data.reverse

/-- Stable insertion of a name into a `strLe`-sorted list of names. -/
def insertCkpt (a : String) : List String → List String
  | [] => [a]
  | b :: l => if strLe a b then a :: b :: l else b :: insertCkpt a l

/-- Python's `sorted` on a list of names: since `strLe` is total, transitive
and antisymmetric, every sorting algorithm produces this unique ascending
arrangement. -/
def sortStrings : List String → List String
  | [] => []
  | a :: l => insertCkpt a (sortStrings l)

/-- The eligible checkpoint files of a run directory: the list comprehension
of `src/launch_experiment.py` lines 160-167 — names ending in `.ckpt`, with
names starting in `last` excluded unless in training mode.  `fs_listdir`
abstracts `os.listdir`. -/
def eligible_ckpts (fs_listdir : String → List String) (lf : String)
    (training_mode : Bool) : List String :=
  (fs_listdir ("runs/" ++ lf ++ "/")).filter (fun f =>
    strEndsWith f ".ckpt" &&
      (if !training_mode then !strStartsWith f "last" else true))

/-- Checkpoint resolution, translated from the inline resolver in
`src/launch_experiment.py` lines 153-176 (the bootstrap entry point delegates
the same `(load_from, training_mode)` resolution to `utils.load_model_ckpt`,
whose module is outside `src/`; the inline source is the authority here).
The filesystem is abstracted by `fs_exists` (`os.path.exists`) and
`fs_listdir` (`os.listdir`);
`hydra.utils.to_absolute_path` — an external path normalizer that leaves the
run-relative name intact — is modelled as the identity.  `run_models[-1]`,
guarded by the `len(run_models) < 1` check, is the `getLast` of the sorted
list. -/
def load_model_ckpt (fs_exists : String → Bool) (fs_listdir : String → List String)
    (load_from : Option String) (training_mode : Bool) : Except Err (Option String) :=
  match load_from with
  | none => .ok none
  | some lf =>
    if strEndsWith lf ".ckpt" then
      if fs_exists lf then .ok (some lf) else .error .notFoundError
    else
      let run_models := sortStrings (eligible_ckpts fs_listdir lf training_mode)
      if h : run_models.length < 1 then .error .notFoundError
      else .ok (some ("runs/" ++ lf ++ "/" ++
        run_models.getLast (List.length_pos.mp (by omega))))

/-- Modelled from the spec: the Run Descriptor (`RunConfig`, defined in
`conf/experiment.py`, which is not under `src/`).  Spec §3 gives its field
set: `{training_mode: bool, seed: int, epochs: int, val_every, viz_every,
viz_train_every, viz_num_samples, load_from: optional string}`. -/
structure RunConfig where
  training_mode : Bool
  seed : Int
  epochs : Int
  val_every : Int
  viz_every : Int
  viz_train_every : Int
  viz_num_samples : Int
  load_from : Option String
deriving DecidableEq, Repr

/-- Values that can appear as keyword arguments of the driver constructor and
its run entry point. -/
inductive V where
  | bool (b : Bool)
  | int (n : Int)
  | str (s : String)
  | optStr (s : Option String)
  | model (m : ModelObj)
  | optzr (o : OptimizerInst)
  | sched (s : Scheduler)
  | loader (l : DataLoaderInst)
  | loss (l : Option LossInst)
  | path (p : Option String)
deriving DecidableEq, Repr

/-- `dataclasses.asdict(run)`: the run descriptor's fields as keyword data,
in field-declaration order. -/
def asdictRun (r : RunConfig) : List (String × V) :=
  [("training_mode", .bool r.training_mode),
   ("seed", .int r.seed),
   ("epochs", .int r.epochs),
   ("val_every", .int r.val_every),
   ("viz_every", .int r.viz_every),
   ("viz_train_every", .int r.viz_train_every),
   ("viz_num_samples", .int r.viz_num_samples),
   ("load_from", .optStr r.load_from)]

/-- `common_args` (`src/bootstrap/launch_experiment.py` lines 149-154): the
keyword arguments shared by the trainer and tester constructors. -/
def common_args (run_name : String) (model : ModelObj) (model_ckpt_path : Option String)
    (training_loss : Option LossInst) : List (String × V) :=
  [("run_name", .str run_name),
   ("model", .model model),
   ("model_ckpt_path", .path model_ckpt_path),
   ("training_loss", .loss training_loss)]

/-- The constructed run driver and the invocation of its run entry point:
constructor keyword arguments, then the keyword arguments of `.train(...)` /
`.test(...)`. -/
inductive DriverCall where
  | trainerCall (ctorKwargs : List (String × V)) (trainKwargs : List (String × V))
  | testerCall (ctorKwargs : List (String × V)) (testKwargs : List (String × V))
deriving DecidableEq, Repr

/-- Assembly-stage events, in the vocabulary of the specification's control
flow (§2).  `optimizationAssembler` covers the `make_optimizer` /
`make_scheduler` pair. -/
inductive Event where
  | seeder
  | modelAssembler
  | datasetAssembler
  | optimizationAssembler
  | devicePlacement
  | lossAssembler
  | loaderAssembler
  | checkpointResolver
  | runDriverAssembler
  | driverInvoked
deriving DecidableEq, Repr

/-- The environment external to the orchestrator: the Hydra run name, the
CUDA device count, the `project_conf.REPRODUCIBLE` flag, and the
filesystem. -/
structure Env where
  run_name : String
  device_count : Nat
  reproducible : Bool
  fs_exists : String → Bool
  fs_listdir : String → List String

/-- The orchestrated launch, translated from
`src/bootstrap/launch_experiment.py` lines 103-189 as driven by the entry
points (`src/test.py`: `seed_everything` runs as a `pre_call` — before
`launch_experiment` — exactly when `project_conf.REPRODUCIBLE` holds).
Returns the driver invocation (or the aborting error) together with the trace
of stage events, emitted in source order: `make_model` (line 128),
`make_datasets` (line 130), `make_optimizer`/`make_scheduler` (lines 133-134),
`parallelize_model` (line 135), `make_training_loss` (line 136),
`make_dataloaders` (line 137), checkpoint resolution (line 148), then driver
construction and entry-point invocation (lines 155-189).  `to_cuda_` (an
external device move that returns its argument) is modelled as the
identity. -/
def launch_experiment (env : Env) (run : RunConfig)
    (data_loader : DataLoaderCtor)
    (optimizer_ctor : ModelInst → OptimizerInst)
    (scheduler_ctor : OptimizerInst → Scheduler)
    (dataset : DatasetP)
    (model_ctor : Nat → ModelInst)
    (training_loss_ctor : Unit → LossInst) :
    Except Err DriverCall × List Event :=
  let ev0 : List Event := if env.reproducible then [.seeder] else []
  let model_inst := (make_model model_ctor dataset).1
  let ds := (make_datasets run.training_mode run.seed dataset).1
  let train_dataset := ds.1
  let val_dataset := ds.2.1
  let test_dataset := ds.2.2
  let opt_inst := make_optimizer optimizer_ctor model_inst
  let scheduler_inst := make_scheduler scheduler_ctor opt_inst run.epochs
  let model_obj := parallelize_model env.device_count model_inst
  let training_loss_inst := (make_training_loss run.training_mode training_loss_ctor).1
  let ev1 := ev0 ++ [.modelAssembler, .datasetAssembler, .optimizationAssembler,
    .devicePlacement, .lossAssembler, .loaderAssembler]
  match (make_dataloaders data_loader train_dataset val_dataset test_dataset
      run.training_mode env.reproducible run.seed).1 with
  | .error e => (.error e, ev1)
  | .ok (train_loader_inst, val_loader_inst, test_loader_inst) =>
    let ev2 := ev1 ++ [.checkpointResolver]
    match load_model_ckpt env.fs_exists env.fs_listdir run.load_from run.training_mode with
    | .error e => (.error e, ev2)
    | .ok model_ckpt_path =>
      let ev3 := ev2 ++ [.runDriverAssembler]
      let cargs := common_args env.run_name model_obj model_ckpt_path training_loss_inst
      if run.training_mode then
        match training_loss_inst with
        | none => (.error .preconditionError, ev3)
        | some _ =>
          match val_loader_inst, train_loader_inst with
          | some vl, some tl =>
            let ctorKwargs :=
              [("train_loader", V.loader tl), ("val_loader", V.loader vl),
               ("opt", V.optzr opt_inst), ("scheduler", V.sched scheduler_inst)]
                ++ cargs ++ asdictRun run
            let trainKwargs : List (String × V) :=
              [("epochs", .int run.epochs), ("val_every", .int run.val_every),
               ("visualize_every", .int run.viz_every),
               ("visualize_train_every", .int run.viz_train_every),
               ("visualize_n_samples", .int run.viz_num_samples)]
            (.ok (.trainerCall ctorKwargs trainKwargs), ev3 ++ [.driverInvoked])
          | _, _ => (.error .preconditionError, ev3)
      else
        match test_loader_inst with
        | some te =>
          let ctorKwargs := [("data_loader", V.loader te)] ++ cargs
          let testKwargs := [("visualize_every", V.int run.viz_every)] ++ asdictRun run
          (.ok (.testerCall ctorKwargs testKwargs), ev3 ++ [.driverInvoked])
        | none => (.error .preconditionError, ev3)

/-- Concrete environment used to exercise the orchestrator: one device,
reproducibility on, empty filesystem. -/
def sampleEnv : Env :=
  { run_name := "run", device_count := 1, reproducible := true,
    fs_exists := fun _ => false, fs_listdir := fun _ => [] }

/-- Concrete training-mode run descriptor. -/
def sampleRun : RunConfig :=
  { training_mode := true, seed := 42, epochs := 10, val_every := 1,
    viz_every := 2, viz_train_every := 3, viz_num_samples := 4, load_from := none }

/-- Concrete data-loader deferred constructor with shuffling defaults on. -/
def sampleDL : DataLoaderCtor := { batch_size := 32, shuffle := true, drop_last := true }

/-- Concrete dataset deferred constructor with image dimension 28. -/
def sampleDS : DatasetP := { cfg := ⟨28⟩, ctor := DatasetInst.mk }

/-- Concrete scheduler deferred constructor producing a non-cosine scheduler. -/
def sampleSchedCtor : OptimizerInst → Scheduler := fun _ => .stepLR 1 2

/-- The orchestrated launch at the concrete sample inputs. -/
def sampleLaunch : Except Err DriverCall × List Event :=
  launch_experiment sampleEnv sampleRun sampleDL OptimizerInst.mk sampleSchedCtor
    sampleDS ModelInst.mk (fun _ => ⟨⟩)

/-- The driver invocation produced by the sample launch. -/
def sampleDriver : DriverCall := (sampleLaunch.1.toOption).getD (.testerCall [] [])

/-- The trainer-constructor keyword arguments of the sample launch. -/
def sampleCtorKwargs : List (String × V) :=
  match sampleDriver with
  | .trainerCall ck _ => ck
  | .testerCall ck _ => ck

/-- The train-entry-point keyword arguments of the sample launch. -/
def sampleTrainKwargs : List (String × V) :=
  match sampleDriver with
  | .trainerCall _ tk => tk
  | .testerCall _ tk => tk

/-- Concrete testing-mode run descriptor. -/
def sampleRunTest : RunConfig :=
  { training_mode := false, seed := 42, epochs := 10, val_every := 1,
    viz_every := 2, viz_train_every := 3, viz_num_samples := 4, load_from := none }

/-- The orchestrated launch at the testing-mode sample inputs. -/
def sampleLaunchTest : Except Err DriverCall × List Event :=
  launch_experiment sampleEnv sampleRunTest sampleDL OptimizerInst.mk sampleSchedCtor
    sampleDS ModelInst.mk (fun _ => ⟨⟩)

/-- The driver invocation produced by the testing-mode sample launch. -/
def sampleTestDriver : DriverCall := (sampleLaunchTest.1.toOption).getD (.testerCall [] [])

/-- The tester-constructor keyword arguments of the testing-mode sample
launch. -/
def sampleTestCtorKwargs : List (String × V) :=
  match sampleTestDriver with
  | .trainerCall ck _ => ck
  | .testerCall ck _ => ck

/-- The test-entry-point keyword arguments of the testing-mode sample
launch. -/
def sampleTestEntryKwargs : List (String × V) :=
  match sampleTestDriver with
  | .trainerCall _ tk => tk
  | .testerCall _ tk => tk

end Experiment

namespace Experiment

/-- `charListLe` is reflexive. -/
theorem charListLe_refl (l : List Char) : charListLe l l = true := by
  induction l with
  | nil => rfl
  | cons a as ih => simp [charListLe, ih]

/-- `charListLe` is total. -/
theorem charListLe_total (a b : List Char) :
    charListLe a b = true ∨ charListLe b a = true := by
  induction a generalizing b with
  | nil => exact Or.inl rfl
  | cons x xs ih =>
    cases b with
    | nil => exact Or.inr rfl
    | cons y ys =>
      simp only [charListLe]
      rcases Nat.lt_trichotomy x.toNat y.toNat with h | h | h
      · left
        simp [h]
      · rcases ih ys with h' | h' <;> [left; right] <;>
          simp [h, h', Nat.lt_irrefl]
      · right
        simp [h]

/-- `charListLe` is transitive. -/
theorem charListLe_trans (a b c : List Char) (hab : charListLe a b = true)
    (hbc : charListLe b c = true) : charListLe a c = true := by
  induction a generalizing b c with
  | nil => rfl
  | cons x xs ih =>
    cases b with
    | nil => simp [charListLe] at hab
    | cons y ys =>
      cases c with
      | nil => simp [charListLe] at hbc
      | cons z zs =>
        simp only [charListLe] at hab hbc ⊢
        split_ifs at hab hbc ⊢ <;> first | rfl | omega | skip
        all_goals exact ih ys zs hab hbc

/-- `strLe` is reflexive. -/
theorem strLe_refl (a : String) : strLe a a = true := charListLe_refl a.data

/-- `strLe` is total. -/
theorem strLe_total (a b : String) : strLe a b = true ∨ strLe b a = true :=
  charListLe_total a.data b.data

/-- `strLe` is transitive. -/
theorem strLe_trans (a b c : String) (hab : strLe a b = true)
    (hbc : strLe b c = true) : strLe a c = true :=
  charListLe_trans a.data b.data c.data hab hbc

/-- Membership in an insertion. -/
theorem mem_insertCkpt (x a : String) (l : List String) :
    x ∈ insertCkpt a l ↔ x = a ∨ x ∈ l := by
  induction l with
  | nil => simp [insertCkpt]
  | cons b bs ih =>
    simp only [insertCkpt]
    split_ifs with h
    · simp [List.mem_cons]
    · simp only [List.mem_cons, ih]
      tauto

/-- Insertion preserves `strLe`-sortedness. -/
theorem pairwise_insertCkpt (a : String) (l : List String)
    (h : l.Pairwise (fun x y => strLe x y = true)) :
    (insertCkpt a l).Pairwise (fun x y => strLe x y = true) := by
  induction l with
  | nil => simp [insertCkpt]
  | cons b bs ih =>
    rw [List.pairwise_cons] at h
    obtain ⟨hb, hbs⟩ := h
    simp only [insertCkpt]
    split_ifs with hab
    · refine List.Pairwise.cons ?_ (List.Pairwise.cons hb hbs)
      intro y hy
      rcases List.mem_cons.mp hy with rfl | hy'
      · exact hab
      · exact strLe_trans a b y hab (hb y hy')
    · refine List.Pairwise.cons ?_ (ih hbs)
      intro y hy
      rcases (mem_insertCkpt y a bs).mp hy with rfl | hy'
      · rcases strLe_total y b with h' | h'
        · exact absurd h' hab
        · exact h'
      · exact hb y hy'

/-- The result of `sortStrings` is `strLe`-sorted. -/
theorem pairwise_sortStrings (l : List String) :
    (sortStrings l).Pairwise (fun x y => strLe x y = true) := by
  induction l with
  | nil => simp [sortStrings]
  | cons a as ih => exact pairwise_insertCkpt a (sortStrings as) ih

/-- `sortStrings` preserves membership. -/
theorem mem_sortStrings (x : String) (l : List String) :
    x ∈ sortStrings l ↔ x ∈ l := by
  induction l with
  | nil => simp [sortStrings]
  | cons a as ih =>
    simp only [sortStrings, mem_insertCkpt, ih, List.mem_cons]

/-- `sortStrings` returns the empty list only on the empty list. -/
theorem sortStrings_eq_nil (l : List String) : sortStrings l = [] ↔ l = [] := by
  cases l with
  | nil => simp [sortStrings]
  | cons a as =>
    simp only [sortStrings]
    constructor
    · intro h
      have : a ∈ insertCkpt a (sortStrings as) := (mem_insertCkpt a a _).mpr (Or.inl rfl)
      rw [h] at this
      exact absurd this (List.not_mem_nil a)
    · intro h
      exact absurd h (by simp)

/-- In a list that is pairwise `strLe`-ordered, the last element is an upper
bound for every member. -/
theorem le_getLast_of_sorted :
    ∀ (l : List String) (hne : l ≠ [])
      (_ : l.Pairwise (fun a b => strLe a b = true)) (x : String),
      x ∈ l → strLe x (l.getLast hne) = true
  | [], hne, _, _, _ => absurd rfl hne
  | [a], _, _, x, hx => by
      simp only [List.mem_singleton] at hx
      subst hx
      simpa [List.getLast] using strLe_refl x
  | a :: b :: t, _, hp, x, hx => by
      rw [List.pairwise_cons] at hp
      obtain ⟨ha, hp'⟩ := hp
      rw [List.getLast_cons (l := b :: t) (by simp)]
      rcases List.mem_cons.mp hx with rfl | hx'
      · have hmem := List.getLast_mem (l := b :: t) (by simp)
        exact ha _ hmem
      · exact le_getLast_of_sorted (b :: t) (by simp) hp' x hx'

/-- Full characterization of `launch_experiment`: the launch aborts exactly
when checkpoint resolution aborts (every other embedded precondition is
discharged by the factories' own guarantees), and on success it produces the
mode-appropriate driver call with the stated keyword arguments and the full
stage trace. -/
theorem launch_spec (env : Env) (run : RunConfig) (data_loader : DataLoaderCtor)
    (optimizer_ctor : ModelInst → OptimizerInst)
    (scheduler_ctor : OptimizerInst → Scheduler)
    (dataset : DatasetP) (model_ctor : Nat → ModelInst)
    (training_loss_ctor : Unit → LossInst) :
    launch_experiment env run data_loader optimizer_ctor scheduler_ctor dataset
        model_ctor training_loss_ctor =
      (let ev_fail := (if env.reproducible then [Event.seeder] else []) ++
          [.modelAssembler, .datasetAssembler, .optimizationAssembler, .devicePlacement,
           .lossAssembler, .loaderAssembler, .checkpointResolver]
       let ev_ok := ev_fail ++ [.runDriverAssembler, .driverInvoked]
       let g : Option Generator := if env.reproducible then some ⟨run.seed⟩ else none
       let model_inst := model_ctor (dataset.cfg.img_dim ^ 2)
       let model_obj := parallelize_model env.device_count model_inst
       let opt_inst := optimizer_ctor model_inst
       let sch := make_scheduler scheduler_ctor opt_inst run.epochs
       match load_model_ckpt env.fs_exists env.fs_listdir run.load_from run.training_mode with
       | .error e => (.error e, ev_fail)
       | .ok ckpt =>
         if run.training_mode then
           (.ok (.trainerCall
             ([("train_loader", V.loader (data_loader.call
                  (dataset.ctor ⟨"train", run.seed, none⟩) g none none)),
               ("val_loader", V.loader (data_loader.call
                  (dataset.ctor ⟨"val", run.seed, none⟩) g (some false) (some false))),
               ("opt", V.optzr opt_inst), ("scheduler", V.sched sch)]
               ++ common_args env.run_name model_obj ckpt (some (training_loss_ctor ()))
               ++ asdictRun run)
             [("epochs", .int run.epochs), ("val_every", .int run.val_every),
              ("visualize_every", .int run.viz_every),
              ("visualize_train_every", .int run.viz_train_every),
              ("visualize_n_samples", .int run.viz_num_samples)]), ev_ok)
         else
           (.ok (.testerCall
             ([("data_loader", V.loader (data_loader.call
                  (dataset.ctor ⟨"test", run.seed, some false⟩) g (some false) (some false)))]
               ++ common_args env.run_name model_obj ckpt none)
             ([("visualize_every", V.int run.viz_every)] ++ asdictRun run)), ev_ok)) := by
  cases htm : run.training_mode <;>
    cases hck : load_model_ckpt env.fs_exists env.fs_listdir run.load_from run.training_mode <;>
      simp [launch_experiment, make_model, make_datasets, make_dataloaders,
        make_optimizer, make_training_loss, just, htm, htm ▸ hck]

/-- C4: for a non-null `load_from` that does not end with `.ckpt`, checkpoint
resolution filters the run directory's listing to checkpoint files — dropping
names starting with `last` exactly when not in training mode — and returns the
run-directory path of the last element of the ascending sort, which is a
member of the eligible set and a `strLe`-upper bound of it (the
lexicographically last eligible name); it fails with `NotFoundError` when the
eligible set is empty.  In particular a directory containing
`["a.ckpt", "last.ckpt", "z.ckpt"]` resolves to `z.ckpt` in testing mode. -/
theorem load_model_ckpt_run_id :
    (∀ (fs_exists : String → Bool) (fs_listdir : String → List String)
       (lf : String) (training_mode : Bool),
      strEndsWith lf ".ckpt" = false →
      (eligible_ckpts fs_listdir lf training_mode = [] →
        load_model_ckpt fs_exists fs_listdir (some lf) training_mode =
          .error .notFoundError)
      ∧ ∀ hne : sortStrings (eligible_ckpts fs_listdir lf training_mode) ≠ [],
          load_model_ckpt fs_exists fs_listdir (some lf) training_mode =
            .ok (some ("runs/" ++ lf ++ "/" ++
              (sortStrings (eligible_ckpts fs_listdir lf training_mode)).getLast hne))
          ∧ (sortStrings (eligible_ckpts fs_listdir lf training_mode)).getLast hne
              ∈ eligible_ckpts fs_listdir lf training_mode
          ∧ ∀ x ∈ eligible_ckpts fs_listdir lf training_mode,
              strLe x ((sortStrings
                (eligible_ckpts fs_listdir lf training_mode)).getLast hne) = true)
    ∧ load_model_ckpt (fun _ => false) (fun _ => ["a.ckpt", "last.ckpt", "z.ckpt"])
        (some "myrun") false = .ok (some "runs/myrun/z.ckpt") := by
  constructor
  · intro fs_exists fs_listdir lf training_mode hnotckpt
    constructor
    · intro helig
      simp [load_model_ckpt, hnotckpt, helig, sortStrings]
    · intro hne
      have hlen : ¬ (sortStrings (eligible_ckpts fs_listdir lf training_mode)).length < 1 := by
        have := List.length_pos.mpr hne
        omega
      refine ⟨?_, ?_, ?_⟩
      · simp [load_model_ckpt, hnotckpt, hlen]
      · rw [← mem_sortStrings]
        exact List.getLast_mem hne
      · intro x hx
        exact le_getLast_of_sorted _ hne (pairwise_sortStrings _) x
          ((mem_sortStrings x _).mpr hx)
  · decide

/-- C4 witness: the general statement applied to the claim's concrete
directory in testing mode — `last.ckpt` is excluded and `z.ckpt`, the
lexicographically last remaining name, is selected. -/
theorem load_model_ckpt_run_id_witness :
    load_model_ckpt (fun _ => false) (fun _ => ["a.ckpt", "last.ckpt", "z.ckpt"])
      (some "myrun") false = .ok (some "runs/myrun/z.ckpt") := by
  have h := (load_model_ckpt_run_id.1 (fun _ => false)
    (fun _ => ["a.ckpt", "last.ckpt", "z.ckpt"]) "myrun" false (by decide)).2 (by decide)
  rw [h.1]
  decide

/-- C5: a null `load_from` resolves to null; a `load_from` ending with the
checkpoint suffix resolves to itself when it exists on disk and fails with
`NotFoundError` when it does not. -/
theorem load_model_ckpt_direct (fs_exists : String → Bool)
    (fs_listdir : String → List String) (training_mode : Bool) :
    load_model_ckpt fs_exists fs_listdir none training_mode = .ok none
    ∧ (∀ lf : String, strEndsWith lf ".ckpt" = true → fs_exists lf = true →
        load_model_ckpt fs_exists fs_listdir (some lf) training_mode = .ok (some lf))
    ∧ (∀ lf : String, strEndsWith lf ".ckpt" = true → fs_exists lf = false →
        load_model_ckpt fs_exists fs_listdir (some lf) training_mode =
          .error .notFoundError) := by
  refine ⟨rfl, ?_, ?_⟩ <;> intro lf he hex <;> simp [load_model_ckpt, he, hex]

/-- C5 witness: an existing direct path is returned unchanged; a missing
direct path raises `NotFoundError`. -/
theorem load_model_ckpt_direct_witness :
    load_model_ckpt (fun s => s == "model.ckpt") (fun _ => []) (some "model.ckpt")
        true = .ok (some "model.ckpt")
    ∧ load_model_ckpt (fun _ => false) (fun _ => []) (some "gone.ckpt") true =
        .error .notFoundError :=
  ⟨(load_model_ckpt_direct (fun s => s == "model.ckpt") (fun _ => []) true).2.1
      "model.ckpt" (by decide) (by decide),
   (load_model_ckpt_direct (fun _ => false) (fun _ => []) true).2.2
      "gone.ckpt" (by decide) rfl⟩

/-- C2: `make_datasets` invokes the dataset constructor exactly twice in
training mode, binding `split="train"` and `split="val"` (each with `seed`),
returning `(train≠null, val≠null, test=null)`; in testing mode it invokes the
constructor exactly once with `split="test"`, `augment=false` and `seed`,
returning `(null, null, test≠null)`; as `training_mode` is a boolean, no other
combination of null/non-null results is ever produced. -/
theorem make_datasets_mode_contract (seed : Int) (dataset : DatasetP) :
    make_datasets true seed dataset =
      ((some (dataset.ctor ⟨"train", seed, none⟩),
        some (dataset.ctor ⟨"val", seed, none⟩), none),
       [⟨"train", seed, none⟩, ⟨"val", seed, none⟩])
    ∧ make_datasets false seed dataset =
      ((none, none, some (dataset.ctor ⟨"test", seed, some false⟩)),
       [⟨"test", seed, some false⟩]) :=
  ⟨rfl, rfl⟩

/-- C3: `make_model` passes `encoder_input_dim = img_dim ^ 2` — read from the
dataset deferred constructor's bound configuration via `just` — to the model
constructor, and its dataset-constructor invocation log is empty (the dataset
constructor is never invoked), for every positive image dimension. -/
theorem make_model_encoder_input_dim (model_ctor : Nat → ModelInst)
    (dataset : DatasetP) (_hpos : 0 < dataset.cfg.img_dim) :
    make_model model_ctor dataset = (model_ctor ((just dataset).img_dim ^ 2), [])
    ∧ (just dataset).img_dim = dataset.cfg.img_dim :=
  ⟨rfl, rfl⟩

/-- C3 witness: the theorem at image dimension 3. -/
theorem make_model_encoder_input_dim_witness :
    make_model ModelInst.mk ⟨⟨3⟩, DatasetInst.mk⟩ = (⟨9⟩, []) := by
  have h := make_model_encoder_input_dim ModelInst.mk ⟨⟨3⟩, DatasetInst.mk⟩ (by decide)
  exact h.1

/-- C7: `make_scheduler` applies the scheduler constructor to the live
optimizer; when the result is in the cosine-annealing family its `T_max` field
is overwritten with `epochs` (other constructor-supplied fields kept), and any
other scheduler is returned exactly as constructed. -/
theorem make_scheduler_patch (scheduler_ctor : OptimizerInst → Scheduler)
    (optimizer : OptimizerInst) (epochs : Int) :
    (∀ t e, scheduler_ctor optimizer = .cosineAnnealingLR t e →
      make_scheduler scheduler_ctor optimizer epochs = .cosineAnnealingLR epochs e)
    ∧ ((∀ t e, scheduler_ctor optimizer ≠ .cosineAnnealingLR t e) →
      make_scheduler scheduler_ctor optimizer epochs = scheduler_ctor optimizer) := by
  constructor
  · intro t e h
    simp [make_scheduler, h]
  · intro h
    cases hs : scheduler_ctor optimizer with
    | cosineAnnealingLR t e => exact absurd hs (h t e)
    | stepLR a b => simp [make_scheduler, hs]
    | reduceLROnPlateau p => simp [make_scheduler, hs]

/-- C7 witness: a cosine scheduler constructed with `T_max = 0` is patched to
`T_max = 10`, and a step scheduler is returned untouched. -/
theorem make_scheduler_patch_witness :
    make_scheduler (fun _ => .cosineAnnealingLR 0 5) ⟨⟨4⟩⟩ 10 =
      Scheduler.cosineAnnealingLR 10 5
    ∧ make_scheduler (fun _ => .stepLR 1 2) ⟨⟨4⟩⟩ 10 = Scheduler.stepLR 1 2 :=
  ⟨(make_scheduler_patch (fun _ => .cosineAnnealingLR 0 5) ⟨⟨4⟩⟩ 10).1 0 5 rfl,
   (make_scheduler_patch (fun _ => .stepLR 1 2) ⟨⟨4⟩⟩ 10).2
     (fun _ _ h => Scheduler.noConfusion h)⟩

/-- C8: in training mode the val loader is constructed with
`shuffle=false, drop_last=false` regardless of the loader constructor's bound
defaults while the train loader keeps the constructor's defaults; in testing
mode the test loader is likewise forced to `shuffle=false, drop_last=false`. -/
theorem make_dataloaders_shuffle_policy (data_loader : DataLoaderCtor)
    (tr va te : DatasetInst) (reproducible : Bool) (seed : Int) :
    (match (make_dataloaders data_loader (some tr) (some va) none true
        reproducible seed).1 with
     | .ok (some tl, some vl, none) =>
        vl.shuffle = false ∧ vl.drop_last = false
          ∧ tl.shuffle = data_loader.shuffle ∧ tl.drop_last = data_loader.drop_last
     | _ => False)
    ∧ (match (make_dataloaders data_loader none none (some te) false
        reproducible seed).1 with
       | .ok (none, none, some teL) => teL.shuffle = false ∧ teL.drop_last = false
       | _ => False) :=
  ⟨⟨rfl, rfl, rfl, rfl⟩, rfl, rfl⟩

/-- C9: `make_dataloaders` fails with `PreconditionError` when training mode
lacks the train or the val dataset, or testing mode lacks the test dataset,
and in every such case its loader-construction log is empty — no loader is
constructed before the check fires. -/
theorem make_dataloaders_precondition (data_loader : DataLoaderCtor)
    (train_dataset val_dataset test_dataset : Option DatasetInst)
    (reproducible : Bool) (seed : Int) :
    (train_dataset = none ∨ val_dataset = none →
      make_dataloaders data_loader train_dataset val_dataset test_dataset true
          reproducible seed = (.error .preconditionError, []))
    ∧ (test_dataset = none →
      make_dataloaders data_loader train_dataset val_dataset test_dataset false
          reproducible seed = (.error .preconditionError, [])) := by
  constructor
  · rintro (rfl | rfl)
    · cases val_dataset <;> simp [make_dataloaders]
    · cases train_dataset <;> simp [make_dataloaders]
  · rintro rfl
    simp [make_dataloaders]

/-- C9 witness: the theorem at a missing val dataset (training mode) and at a
missing test dataset (testing mode). -/
theorem make_dataloaders_precondition_witness :
    make_dataloaders sampleDL (some ⟨⟨"train", 0, none⟩⟩) none none true true 0 =
      (.error .preconditionError, [])
    ∧ make_dataloaders sampleDL none none none false true 0 =
      (.error .preconditionError, []) :=
  ⟨(make_dataloaders_precondition sampleDL (some ⟨⟨"train", 0, none⟩⟩) none none
      true 0).1 (Or.inr rfl),
   (make_dataloaders_precondition sampleDL none none none true 0).2 rfl⟩

/-- C1 counterexample: a successful orchestrated launch (training mode, seed
42) in which dataset assembly executes strictly after model assembly and
device placement executes strictly after optimizer/scheduler construction —
refuting the claimed Seeder → Dataset → Model → Device → Optimization
order. -/
theorem launch_stage_order_counterexample :
    sampleLaunch.1 = .ok sampleDriver
    ∧ Event.modelAssembler ∈ sampleLaunch.2
    ∧ Event.devicePlacement ∈ sampleLaunch.2
    ∧ sampleLaunch.2.indexOf Event.modelAssembler <
        sampleLaunch.2.indexOf Event.datasetAssembler
    ∧ sampleLaunch.2.indexOf Event.optimizationAssembler <
        sampleLaunch.2.indexOf Event.devicePlacement := by decide

/-- C1 (amended): every orchestrated launch that reaches driver invocation
executes the stages in the order Seeder (when reproducibility is on), Model
Assembler, Dataset Assembler, Optimization Assembler, Device Placement,
training-loss assembly, Loader Assembler, Checkpoint Resolver, Run Driver
Assembler, driver invocation; in particular dataset assembly always executes
after model assembly, and device placement always executes after
optimizer/scheduler construction. -/
theorem launch_stage_order (env : Env) (run : RunConfig)
    (data_loader : DataLoaderCtor) (optimizer_ctor : ModelInst → OptimizerInst)
    (scheduler_ctor : OptimizerInst → Scheduler) (dataset : DatasetP)
    (model_ctor : Nat → ModelInst) (training_loss_ctor : Unit → LossInst)
    (d : DriverCall)
    (h : (launch_experiment env run data_loader optimizer_ctor scheduler_ctor
        dataset model_ctor training_loss_ctor).1 = .ok d) :
    (launch_experiment env run data_loader optimizer_ctor scheduler_ctor
        dataset model_ctor training_loss_ctor).2 =
      (if env.reproducible then [Event.seeder] else []) ++
        [.modelAssembler, .datasetAssembler, .optimizationAssembler,
         .devicePlacement, .lossAssembler, .loaderAssembler, .checkpointResolver,
         .runDriverAssembler, .driverInvoked] := by
  rw [launch_spec] at h ⊢
  cases htm : run.training_mode <;>
    cases hck : load_model_ckpt env.fs_exists env.fs_listdir run.load_from
        run.training_mode <;>
      simp [htm, htm ▸ hck, List.append_assoc] at h ⊢

/-- C1 witness: the amended order theorem at the concrete sample launch. -/
theorem launch_stage_order_witness :
    sampleLaunch.2 = [.seeder, .modelAssembler, .datasetAssembler,
      .optimizationAssembler, .devicePlacement, .lossAssembler, .loaderAssembler,
      .checkpointResolver, .runDriverAssembler, .driverInvoked] := by
  have h := launch_stage_order sampleEnv sampleRun sampleDL OptimizerInst.mk
    sampleSchedCtor sampleDS ModelInst.mk (fun _ => ⟨⟩) sampleDriver (by decide)
  simpa [sampleLaunch, sampleEnv] using h

/-- C6 counterexample: in the concrete training-mode launch the run entry
point `.train(...)` is invoked without the run descriptor's fields — `seed`
is among `asdict(run)` but not among the entry point's keyword names — so the
descriptor is not merged into the entry-point call in both modes. -/
theorem launch_run_descriptor_kwargs_counterexample :
    sampleLaunch.1 = .ok (.trainerCall sampleCtorKwargs sampleTrainKwargs)
    ∧ ("seed", V.int 42) ∈ asdictRun sampleRun
    ∧ "seed" ∉ sampleTrainKwargs.map Prod.fst := by decide

/-- C6 (amended): the full run descriptor's fields are merged in as
supplementary keyword data to the trainer's *constructor* in training mode,
and to the tester's run entry point (`.test(...)`) in testing mode. -/
theorem launch_run_descriptor_kwargs (env : Env) (run : RunConfig)
    (data_loader : DataLoaderCtor) (optimizer_ctor : ModelInst → OptimizerInst)
    (scheduler_ctor : OptimizerInst → Scheduler) (dataset : DatasetP)
    (model_ctor : Nat → ModelInst) (training_loss_ctor : Unit → LossInst) :
    (∀ ck tk, (launch_experiment env run data_loader optimizer_ctor scheduler_ctor
        dataset model_ctor training_loss_ctor).1 = .ok (.trainerCall ck tk) →
      ∀ kv ∈ asdictRun run, kv ∈ ck)
    ∧ (∀ ck tk, (launch_experiment env run data_loader optimizer_ctor scheduler_ctor
        dataset model_ctor training_loss_ctor).1 = .ok (.testerCall ck tk) →
      ∀ kv ∈ asdictRun run, kv ∈ tk) := by
  constructor
  · intro ck tk h kv hkv
    rw [launch_spec] at h
    cases htm : run.training_mode <;>
      cases hck : load_model_ckpt env.fs_exists env.fs_listdir run.load_from
          run.training_mode <;>
        simp [htm, htm ▸ hck] at h
    obtain ⟨h1, _⟩ := h
    subst h1
    simp [hkv]
  · intro ck tk h kv hkv
    rw [launch_spec] at h
    cases htm : run.training_mode <;>
      cases hck : load_model_ckpt env.fs_exists env.fs_listdir run.load_from
          run.training_mode <;>
        simp [htm, htm ▸ hck] at h
    obtain ⟨_, h2⟩ := h
    subst h2
    simp [hkv]

/-- C6 witness: the amended theorem at the concrete launches — `seed` reaches
the trainer constructor in training mode and the test entry point in testing
mode. -/
theorem launch_run_descriptor_kwargs_witness :
    ("seed", V.int 42) ∈ sampleCtorKwargs
    ∧ ("seed", V.int 42) ∈ sampleTestEntryKwargs :=
  ⟨(launch_run_descriptor_kwargs sampleEnv sampleRun sampleDL OptimizerInst.mk
      sampleSchedCtor sampleDS ModelInst.mk (fun _ => ⟨⟩)).1 sampleCtorKwargs
      sampleTrainKwargs (by decide) ("seed", V.int 42) (by decide),
   (launch_run_descriptor_kwargs sampleEnv sampleRunTest sampleDL OptimizerInst.mk
      sampleSchedCtor sampleDS ModelInst.mk (fun _ => ⟨⟩)).2 sampleTestCtorKwargs
      sampleTestEntryKwargs (by decide) ("seed", V.int 42) (by decide)⟩

/-- C10: `make_training_loss` invokes the loss constructor exactly once and
returns the live instance in training mode, and returns null without invoking
it otherwise; and in testing mode that null loss is passed as the
`training_loss` keyword of the tester's constructor. -/
theorem make_training_loss_contract :
    (∀ training_loss_ctor : Unit → LossInst,
      make_training_loss true training_loss_ctor =
        (some (training_loss_ctor ()), [training_loss_ctor ()])
      ∧ make_training_loss false training_loss_ctor = (none, []))
    ∧ (∀ (env : Env) (run : RunConfig) (data_loader : DataLoaderCtor)
        (optimizer_ctor : ModelInst → OptimizerInst)
        (scheduler_ctor : OptimizerInst → Scheduler) (dataset : DatasetP)
        (model_ctor : Nat → ModelInst) (training_loss_ctor : Unit → LossInst)
        (ck tk : List (String × V)),
        run.training_mode = false →
        (launch_experiment env run data_loader optimizer_ctor scheduler_ctor
          dataset model_ctor training_loss_ctor).1 = .ok (.testerCall ck tk) →
        ("training_loss", V.loss none) ∈ ck) := by
  constructor
  · intro training_loss_ctor
    exact ⟨rfl, rfl⟩
  · intro env run data_loader optimizer_ctor scheduler_ctor dataset model_ctor
      training_loss_ctor ck tk htm h
    rw [launch_spec] at h
    cases hck : load_model_ckpt env.fs_exists env.fs_listdir run.load_from
        run.training_mode <;>
      simp [htm, htm ▸ hck] at h
    obtain ⟨h1, _⟩ := h
    subst h1
    simp [common_args]

/-- C10 witness: in the concrete testing-mode launch the tester constructor
receives `training_loss = null`. -/
theorem make_training_loss_contract_witness :
    ("training_loss", V.loss none) ∈ sampleTestCtorKwargs :=
  make_training_loss_contract.2 sampleEnv sampleRunTest sampleDL OptimizerInst.mk
    sampleSchedCtor sampleDS ModelInst.mk (fun _ => ⟨⟩) sampleTestCtorKwargs
    sampleTestEntryKwargs rfl (by decide)

end Experiment
